import Mathlib

/-!
Shallow embedding of the session-lifecycle coordinator of the MnemoMind
browser chat client (src/App.tsx and src/components/UploadModal.tsx).

The React component state is modelled as an explicit record `AppState`;
each event handler of App.tsx becomes a pure function from the current
state (plus the outcomes of the remote service calls it performs, passed
in as explicit `Except`/`Bool` parameters) to the next state.  Remote
calls themselves have no local effect other than their returned outcome,
so this captures exactly the state updates the handlers perform.
-/

set_option autoImplicit false

namespace MnemoMind

/-- `AppStatus` from src/types.ts as used by App.tsx. -/
inductive AppStatus where
  | Initializing
  | Uploading
  | Chatting
  | Error
deriving DecidableEq, Repr

/-- `SearchSource` from src/types.ts: `FileSearch` is document-grounded mode,
`GoogleSearch` is web-grounded mode. -/
inductive SearchSource where
  | FileSearch
  | GoogleSearch
deriving DecidableEq, Repr

/-- Message role: `'user' | 'model'`. -/
inductive Role where
  | user
  | model
deriving DecidableEq, Repr

/-- `ChatMessage`: role, text of the single part, and grounding chunks
(opaque citation payloads, modelled as strings). -/
structure ChatMessage where
  role : Role
  text : String
  groundingChunks : List String := []
deriving DecidableEq, Repr

/-- The `uploadProgress` record of App.tsx. -/
structure UploadProgress where
  current : Nat
  total : Nat
  message : String := ""
  fileName : String := ""
deriving DecidableEq, Repr

/-- A `File` as far as App.tsx observes it: only its name matters to the
coordinator logic. -/
structure FileBlob where
  name : String
deriving DecidableEq, Repr

/-- The useState fields of the `App` component in src/App.tsx. -/
structure AppState where
  status : AppStatus
  searchSource : SearchSource
  error : Option String
  isUploadModalOpen : Bool
  uploadProgress : Option UploadProgress
  activeRagStoreName : Option String
  chatHistory : List ChatMessage
  isQueryLoading : Bool
  exampleQuestions : List String
  documentName : String
deriving DecidableEq, Repr

/-- State after the mount effects ran: `geminiService.initialize()` then
`setStatus(AppStatus.Chatting)`; all other fields at their `useState`
initial values. -/
def initState : AppState :=
  { status := AppStatus.Chatting
    searchSource := SearchSource.FileSearch
    error := none
    isUploadModalOpen := false
    uploadProgress := none
    activeRagStoreName := none
    chatHistory := []
    isQueryLoading := false
    exampleQuestions := []
    documentName := "" }

/-- `handleError` of App.tsx: records the error string and moves the app
to the Error status. -/
def handleError (message : String) (errMsg : String) (s : AppState) : AppState :=
  { s with error := some (message ++ ": " ++ errMsg)
           status := AppStatus.Error }

/-- `handleEndChat` of App.tsx.  The background `deleteRagStore` call is
fire-and-forget: its outcome `_deleteOk` is only ever logged, so the state
update is the same whether the remote delete succeeds or fails. -/
def handleEndChat (_deleteOk : Bool) (s : AppState) : AppState :=
  { s with activeRagStoreName := none
           chatHistory := []
           exampleQuestions := []
           documentName := ""
           searchSource := SearchSource.FileSearch
           status := AppStatus.Chatting }

/-- `handleFileSearchClick` of App.tsx: ends any active session (active
store or web-grounded mode) before opening the upload modal. -/
def handleFileSearchClick (deleteOk : Bool) (s : AppState) : AppState :=
  let s1 :=
    if s.activeRagStoreName.isSome || s.searchSource == SearchSource.GoogleSearch then
      handleEndChat deleteOk s
    else s
  { s1 with isUploadModalOpen := true }

/-- Outcome of the remote query issued by `handleSendMessage`
(`geminiService.fileSearch` or `geminiService.googleSearch`). -/
inductive QueryResult where
  | ok (text : String) (groundingChunks : List String)
  | failed (errMsg : String)
deriving DecidableEq, Repr

/-- The fixed error-placeholder model message appended on a failed query. -/
def queryErrorMessage : ChatMessage :=
  { role := Role.model, text := "Sorry, I encountered an error. Please try again." }

/-- The user message appended for the sent text. -/
def userChatMessage (message : String) : ChatMessage :=
  { role := Role.user, text := message }

/-- `handleSendMessage` of App.tsx.  The boolean in the result records
whether a remote query call was issued.  In document-grounded mode with no
active store the handler returns before doing anything. -/
def handleSendMessage (s : AppState) (message : String) (result : QueryResult) :
    AppState × Bool :=
  if s.searchSource == SearchSource.FileSearch && s.activeRagStoreName.isNone then
    (s, false)
  else
    let s1 := { s with chatHistory := s.chatHistory ++ [userChatMessage message]
                       isQueryLoading := true }
    match result with
    | QueryResult.ok text chunks =>
        let modelMessage : ChatMessage :=
          { role := Role.model, text := text, groundingChunks := chunks }
        ({ s1 with chatHistory := s1.chatHistory ++ [modelMessage]
                   isQueryLoading := false }, true)
    | QueryResult.failed errMsg =>
        let s2 := { s1 with chatHistory := s1.chatHistory ++ [queryErrorMessage] }
        ({ handleError "Failed to get response" errMsg s2 with
             isQueryLoading := false }, true)

/-- Outcomes of the remote calls made by `handleUploadAndStartChat`:
`createRagStore`, one `uploadToRagStore` per file (indexed by position),
and `generateExampleQuestions`. -/
structure RemoteEnv where
  createRagStore : Except String String
  uploadToRagStore : Nat → Except String Unit
  generateExampleQuestions : Except String (List String)

/-- The sequential upload loop: files 0..n-1 in order, aborting at the
first failure. -/
def uploadFiles (env : RemoteEnv) : Nat → Except String Unit
  | 0 => Except.ok ()
  | n + 1 =>
      match uploadFiles env n with
      | Except.ok _ => env.uploadToRagStore n
      | Except.error e => Except.error e

/-- The document-name computation of `handleUploadAndStartChat`:
one file → its name; two files → "A & B"; otherwise "<n> documents". -/
def computeDocName : List FileBlob → String
  | [f] => f.name
  | [f1, f2] => f1.name ++ " & " ++ f2.name
  | fs => toString fs.length ++ " documents"

/-- Whether every remote step of the start sequence succeeds. -/
def startSequenceSucceeds (files : List FileBlob) (env : RemoteEnv) : Bool :=
  env.createRagStore.isOk && (uploadFiles env files.length).isOk
    && env.generateExampleQuestions.isOk

/-- `handleUploadAndStartChat` of App.tsx.  The `finally` block clears the
upload progress and — reading the `status` captured by the closure at call
time, i.e. `s.status` — resets the status to Chatting unless that captured
status was Error.  On any remote failure the catch block runs
`handleError` and then the finally block. -/
def handleUploadAndStartChat (s : AppState) (files : List FileBlob) (env : RemoteEnv) :
    AppState :=
  if files.length = 0 then s
  else
    let finallyStep : AppState → AppState := fun t =>
      { t with uploadProgress := none
               status := if s.status ≠ AppStatus.Error then AppStatus.Chatting
                         else t.status }
    match env.createRagStore with
    | Except.error e => finallyStep (handleError "Failed to start chat session" e s)
    | Except.ok ragStoreName =>
        match uploadFiles env files.length with
        | Except.error e => finallyStep (handleError "Failed to start chat session" e s)
        | Except.ok _ =>
            match env.generateExampleQuestions with
            | Except.error e =>
                finallyStep (handleError "Failed to start chat session" e s)
            | Except.ok questions =>
                finallyStep
                  { s with exampleQuestions := questions
                           documentName := computeDocName files
                           activeRagStoreName := some ragStoreName
                           chatHistory := []
                           status := AppStatus.Chatting
                           isUploadModalOpen := false }

/-- `handleSwitchSource` of App.tsx, teardown phase: `handleEndChat()`
followed by `setSearchSource(source)`. -/
def switchTeardown (deleteOk : Bool) (s : AppState) (source : SearchSource) : AppState :=
  { handleEndChat deleteOk s with searchSource := source }

/-- `handleSwitchSource` of App.tsx.  Same source: early return.  Otherwise
tear down the session, set the new source, and — only when switching to
GoogleSearch — fetch fresh example questions (a failure is only logged). -/
def handleSwitchSource (deleteOk : Bool) (s : AppState) (source : SearchSource)
    (questionsResult : Except String (List String)) : AppState :=
  if source == s.searchSource then s
  else
    let s1 := switchTeardown deleteOk s source
    match source with
    | SearchSource.GoogleSearch =>
        match questionsResult with
        | Except.ok qs => { s1 with exampleQuestions := qs, isQueryLoading := false }
        | Except.error _ => { s1 with isQueryLoading := false }
    | SearchSource.FileSearch => s1

/-!
Event-level transition system.  Each event is a user interaction wired up
in App.tsx's render, bundled with the outcomes of the remote calls the
corresponding handler performs.  The chat interface (send, new chat,
switch source, file-search click) sits below the upload modal's
full-screen overlay, so those handlers can only fire while the modal is
closed; the upload handler is invoked from inside the open modal.
Disabled events leave the state unchanged.
-/

/-- A user interaction together with the remote outcomes its handler sees. -/
inductive Event where
  | fileSearchClick (deleteOk : Bool)
  | upload (files : List FileBlob) (env : RemoteEnv)
  | send (message : String) (result : QueryResult)
  | endChat (deleteOk : Bool)
  | switchSrc (source : SearchSource) (deleteOk : Bool)
      (questionsResult : Except String (List String))

/-- One step of the application: dispatch the event to its handler,
respecting which controls are reachable while the upload modal is open. -/
def stepF (s : AppState) : Event → AppState
  | Event.fileSearchClick d => if s.isUploadModalOpen then s else handleFileSearchClick d s
  | Event.upload files env =>
      if s.isUploadModalOpen then handleUploadAndStartChat s files env else s
  | Event.send m r => if s.isUploadModalOpen then s else (handleSendMessage s m r).1
  | Event.endChat d => if s.isUploadModalOpen then s else handleEndChat d s
  | Event.switchSrc src d qr =>
      if s.isUploadModalOpen then s else handleSwitchSource d s src qr

/-- Run a list of events from a given state. -/
def runFrom (s : AppState) : List Event → AppState
  | [] => s
  | e :: es => runFrom (stepF s e) es

/-- Run a list of events from the freshly mounted application. -/
def run (es : List Event) : AppState := runFrom initState es

/-- Modelled from the spec: whether this event is a completed, fully
successful `startDocumentSession` (an enabled upload of a non-empty file
list all of whose remote steps succeed), i.e. creates an index. -/
def commitsIndex (s : AppState) : Event → Bool
  | Event.upload files env =>
      s.isUploadModalOpen && !files.isEmpty && startSequenceSucceeds files env
  | _ => false

/-- Modelled from the spec: whether this event tears the session down via
`endSession` or a mode switch — an enabled end-chat, an enabled switch to
a different mode, or an enabled file-search click whose guard runs
`handleEndChat`. -/
def tearsDownIndex (s : AppState) : Event → Bool
  | Event.endChat _ => !s.isUploadModalOpen
  | Event.switchSrc src _ _ => !s.isUploadModalOpen && !(src == s.searchSource)
  | Event.fileSearchClick _ =>
      !s.isUploadModalOpen
        && (s.activeRagStoreName.isSome || s.searchSource == SearchSource.GoogleSearch)
  | _ => false

/-- Modelled from the spec: after a trace of events, whether an index has
been successfully created by a completed startDocumentSession and not yet
torn down by endSession or a mode switch. -/
def indexAliveFrom (s : AppState) (a : Bool) : List Event → Bool
  | [] => a
  | e :: es =>
      indexAliveFrom (stepF s e)
        (if commitsIndex s e then true else if tearsDownIndex s e then false else a) es

/-- `indexAliveFrom` started at the freshly mounted application. -/
def indexAlive (es : List Event) : Bool := indexAliveFrom initState false es

/-- Local state of the `UploadModal` component (src/components/UploadModal.tsx)
together with the parent-owned `isOpen` flag it can change via `onClose`. -/
structure ModalState where
  files : List FileBlob
  isOpen : Bool
deriving DecidableEq, Repr

/-- `handleClose` of UploadModal.tsx: a no-op while an upload is in
progress; otherwise clears the selected files and calls `onClose` (which
sets the parent's `isUploadModalOpen` to false). -/
def modalHandleClose (uploadProgress : Option UploadProgress) (m : ModalState) :
    ModalState :=
  if uploadProgress.isSome then m
  else { files := [], isOpen := false }

/-! Concrete states used to instantiate the theorems. -/

/-- A state in web-grounded mode, otherwise fresh. -/
def sampleWebState : AppState :=
  { initState with searchSource := SearchSource.GoogleSearch }

/-- A document-grounded session with an active store and a non-empty
transcript. -/
def sampleDocSession : AppState :=
  { initState with
      activeRagStoreName := some "fileSearchStores/h"
      documentName := "a.pdf"
      exampleQuestions := ["q"]
      chatHistory := [userChatMessage "hi"] }

/-- A remote environment in which every call succeeds. -/
def sampleEnvOk : RemoteEnv :=
  { createRagStore := Except.ok "fileSearchStores/abc"
    uploadToRagStore := fun _ => Except.ok ()
    generateExampleQuestions := Except.ok ["q1"] }

/-- A remote environment in which index creation fails. -/
def sampleEnvCreateFails : RemoteEnv :=
  { createRagStore := Except.error "boom"
    uploadToRagStore := fun _ => Except.ok ()
    generateExampleQuestions := Except.ok ["q1"] }

/-! Theorems for the claims. -/

/-- C2: for every non-empty file list, the session label is the single
file's name for one file, "name1 & name2" for two files, and
"<n> documents" for three or more files. -/
theorem docName_label_cases (f g : FileBlob) (fs : List FileBlob) (h3 : 3 ≤ fs.length) :
    computeDocName [f] = f.name ∧
    computeDocName [f, g] = f.name ++ " & " ++ g.name ∧
    computeDocName fs = toString fs.length ++ " documents" := by
  refine ⟨rfl, rfl, ?_⟩
  match fs, h3 with
  | a :: b :: c :: rest, _ => rfl

/-- Witness for C2 at concrete file lists. -/
theorem docName_label_cases_witness :
    computeDocName [FileBlob.mk "a.pdf"] = "a.pdf" ∧
    computeDocName [FileBlob.mk "a.pdf", FileBlob.mk "b.pdf"] = "a.pdf" ++ " & " ++ "b.pdf" ∧
    computeDocName [FileBlob.mk "a.pdf", FileBlob.mk "b.pdf", FileBlob.mk "c.pdf"]
      = toString ([FileBlob.mk "a.pdf", FileBlob.mk "b.pdf", FileBlob.mk "c.pdf"] :
          List FileBlob).length ++ " documents" :=
  docName_label_cases (FileBlob.mk "a.pdf") (FileBlob.mk "b.pdf")
    [FileBlob.mk "a.pdf", FileBlob.mk "b.pdf", FileBlob.mk "c.pdf"] (by decide)

/-- C3: in document-grounded mode with no active store, sending a message
is a no-op — the state is returned unchanged and no remote call is issued. -/
theorem sendMessage_noop (s : AppState) (message : String) (result : QueryResult)
    (hmode : s.searchSource = SearchSource.FileSearch)
    (hstore : s.activeRagStoreName = none) :
    handleSendMessage s message result = (s, false) := by
  simp [handleSendMessage, hmode, hstore]

/-- Witness for C3 at the freshly mounted state. -/
theorem sendMessage_noop_witness :
    handleSendMessage initState "hello" (QueryResult.failed "e") = (initState, false) :=
  sendMessage_noop initState "hello" (QueryResult.failed "e") rfl rfl

/-- C5: whenever a remote query call is issued and fails, exactly the user
message and the fixed error-placeholder model message are appended, in
that order, preserving every earlier message (net transcript length +2). -/
theorem failedQuery_appends (s : AppState) (message errMsg : String)
    (hcall : (handleSendMessage s message (QueryResult.failed errMsg)).2 = true) :
    (handleSendMessage s message (QueryResult.failed errMsg)).1.chatHistory
      = s.chatHistory ++ [userChatMessage message, queryErrorMessage] ∧
    (handleSendMessage s message (QueryResult.failed errMsg)).1.chatHistory.length
      = s.chatHistory.length + 2 := by
  by_cases hg : s.searchSource == SearchSource.FileSearch && s.activeRagStoreName.isNone
  · simp [handleSendMessage, hg] at hcall
  · constructor
    · simp [handleSendMessage, hg, handleError]
    · simp [handleSendMessage, hg, handleError]

/-- Witness for C5: a failed query in web-grounded mode. -/
theorem failedQuery_appends_witness :
    (handleSendMessage sampleWebState "hi" (QueryResult.failed "boom")).1.chatHistory
      = sampleWebState.chatHistory ++ [userChatMessage "hi", queryErrorMessage] ∧
    (handleSendMessage sampleWebState "hi" (QueryResult.failed "boom")).1.chatHistory.length
      = sampleWebState.chatHistory.length + 2 :=
  failedQuery_appends sampleWebState "hi" "boom" (by decide)

/-- C4 counterexample: a failed query moves the app to `AppStatus.Error`
(via `handleError`), not back to the ready/Chatting state that the claim
asserts. -/
theorem failedQuery_status_counterexample :
    (handleSendMessage sampleWebState "hi" (QueryResult.failed "boom")).1.status
        = AppStatus.Error ∧
    ¬ (handleSendMessage sampleWebState "hi" (QueryResult.failed "boom")).1.status
        = AppStatus.Chatting := by
  decide

/-- C4 amended: whenever a remote query call is issued and fails, the app
moves to the Error status with the error string recorded, while the
transcript gains the user message followed by the error placeholder in
place of a model response. -/
theorem failedQuery_error_state (s : AppState) (message errMsg : String)
    (hcall : (handleSendMessage s message (QueryResult.failed errMsg)).2 = true) :
    (handleSendMessage s message (QueryResult.failed errMsg)).1.status = AppStatus.Error ∧
    (handleSendMessage s message (QueryResult.failed errMsg)).1.error
      = some ("Failed to get response" ++ ": " ++ errMsg) ∧
    (handleSendMessage s message (QueryResult.failed errMsg)).1.chatHistory
      = s.chatHistory ++ [userChatMessage message, queryErrorMessage] := by
  by_cases hg : s.searchSource == SearchSource.FileSearch && s.activeRagStoreName.isNone
  · simp [handleSendMessage, hg] at hcall
  · refine ⟨?_, ?_, ?_⟩ <;> simp [handleSendMessage, hg, handleError]

/-- Witness for the amended C4: a failed query in web-grounded mode. -/
theorem failedQuery_error_state_witness :
    (handleSendMessage sampleWebState "hi" (QueryResult.failed "boom")).1.status
        = AppStatus.Error ∧
    (handleSendMessage sampleWebState "hi" (QueryResult.failed "boom")).1.error
      = some ("Failed to get response" ++ ": " ++ "boom") ∧
    (handleSendMessage sampleWebState "hi" (QueryResult.failed "boom")).1.chatHistory
      = sampleWebState.chatHistory ++ [userChatMessage "hi", queryErrorMessage] :=
  failedQuery_error_state sampleWebState "hi" "boom" (by decide)

/-- C6: ending the chat resets every session field to its idle value, the
outcome of the background remote delete is irrelevant to the resulting
state, and no error is surfaced (the error field is untouched and the
status is Chatting). -/
theorem endChat_resets (deleteOk : Bool) (s : AppState) :
    (handleEndChat deleteOk s).activeRagStoreName = none ∧
    (handleEndChat deleteOk s).chatHistory = [] ∧
    (handleEndChat deleteOk s).exampleQuestions = [] ∧
    (handleEndChat deleteOk s).documentName = "" ∧
    (handleEndChat deleteOk s).status = AppStatus.Chatting ∧
    (handleEndChat deleteOk s).error = s.error ∧
    handleEndChat true s = handleEndChat false s :=
  ⟨rfl, rfl, rfl, rfl, rfl, rfl, rfl⟩

/-- C9: ending the chat always resets the search source to FileSearch
(document-grounded mode); it is never GoogleSearch afterwards. -/
theorem endChat_resets_mode (deleteOk : Bool) (s : AppState) :
    (handleEndChat deleteOk s).searchSource = SearchSource.FileSearch ∧
    (handleEndChat deleteOk s).searchSource ≠ SearchSource.GoogleSearch :=
  ⟨rfl, fun h => by cases h⟩

/-- C10: closing the upload modal is a no-op while an upload is in
progress (the modal stays open and the selected files are kept); with no
upload in progress, closing clears the file list and closes the modal. -/
theorem modalClose_guard (p : UploadProgress) (m : ModalState) :
    modalHandleClose (some p) m = m ∧
    (modalHandleClose none m).files = [] ∧
    (modalHandleClose none m).isOpen = false :=
  ⟨rfl, rfl, rfl⟩

/-- C7: switching to a different source tears the session down — the
transcript, suggested questions and store handle are cleared before the
new questions are fetched — and in particular the resulting state has no
store handle, the new source, and an empty transcript. -/
theorem switchSource_clears (deleteOk : Bool) (s : AppState) (source : SearchSource)
    (qr : Except String (List String)) (hne : source ≠ s.searchSource) :
    (switchTeardown deleteOk s source).chatHistory = [] ∧
    (switchTeardown deleteOk s source).exampleQuestions = [] ∧
    (switchTeardown deleteOk s source).activeRagStoreName = none ∧
    (handleSwitchSource deleteOk s source qr).activeRagStoreName = none ∧
    (handleSwitchSource deleteOk s source qr).searchSource = source ∧
    (handleSwitchSource deleteOk s source qr).chatHistory = [] := by
  have hbe : (source == s.searchSource) = false := by
    simp [hne]
  refine ⟨rfl, rfl, rfl, ?_, ?_, ?_⟩ <;>
    cases source <;> rcases qr with e | qs <;>
      simp [handleSwitchSource, hbe, switchTeardown, handleEndChat]

/-- Witness for C7: switching an active document session to web mode. -/
theorem switchSource_clears_witness :
    (switchTeardown true sampleDocSession SearchSource.GoogleSearch).chatHistory = [] ∧
    (switchTeardown true sampleDocSession SearchSource.GoogleSearch).exampleQuestions = [] ∧
    (switchTeardown true sampleDocSession SearchSource.GoogleSearch).activeRagStoreName
      = none ∧
    (handleSwitchSource true sampleDocSession SearchSource.GoogleSearch
        (Except.ok ["w"])).activeRagStoreName = none ∧
    (handleSwitchSource true sampleDocSession SearchSource.GoogleSearch
        (Except.ok ["w"])).searchSource = SearchSource.GoogleSearch ∧
    (handleSwitchSource true sampleDocSession SearchSource.GoogleSearch
        (Except.ok ["w"])).chatHistory = [] :=
  switchSource_clears true sampleDocSession SearchSource.GoogleSearch (Except.ok ["w"])
    (by decide)

/-! Frame lemmas shared by the lifecycle proofs. -/

/-- When any remote step of the start sequence fails — or the file list is
empty — the handler leaves the session fields and the modal untouched. -/
lemma handleUpload_noCommit_frame (s : AppState) (files : List FileBlob) (env : RemoteEnv)
    (hyp : files.isEmpty = true ∨ startSequenceSucceeds files env = false) :
    (handleUploadAndStartChat s files env).activeRagStoreName = s.activeRagStoreName ∧
    (handleUploadAndStartChat s files env).searchSource = s.searchSource ∧
    (handleUploadAndStartChat s files env).isUploadModalOpen = s.isUploadModalOpen ∧
    (handleUploadAndStartChat s files env).chatHistory = s.chatHistory ∧
    (handleUploadAndStartChat s files env).documentName = s.documentName ∧
    (handleUploadAndStartChat s files env).exampleQuestions = s.exampleQuestions := by
  by_cases h0 : files.length = 0
  · simp [handleUploadAndStartChat, h0]
  · have hfail : startSequenceSucceeds files env = false := by
      rcases hyp with he | hf
      · exact absurd (List.isEmpty_iff_length_eq_zero.mp he) h0
      · exact hf
    unfold handleUploadAndStartChat
    rcases hc : env.createRagStore with e | rn
    · simp [h0, hc, handleError]
    · rcases hu : uploadFiles env files.length with e | u
      · simp [h0, hc, hu, handleError]
      · rcases hq : env.generateExampleQuestions with e | qs
        · simp [h0, hc, hu, hq, handleError]
        · exfalso
          simp [startSequenceSucceeds, hc, hu, hq, Except.isOk, Except.toBool] at hfail

/-- When every remote step succeeds on a non-empty file list, the handler
commits the new session. -/
lemma handleUpload_commit (s : AppState) (files : List FileBlob) (env : RemoteEnv)
    (hne : files.isEmpty = false)
    (hsucc : startSequenceSucceeds files env = true) :
    (handleUploadAndStartChat s files env).activeRagStoreName.isSome = true ∧
    (handleUploadAndStartChat s files env).searchSource = s.searchSource ∧
    (handleUploadAndStartChat s files env).isUploadModalOpen = false ∧
    (handleUploadAndStartChat s files env).documentName = computeDocName files ∧
    (handleUploadAndStartChat s files env).chatHistory = [] ∧
    (handleUploadAndStartChat s files env).status = AppStatus.Chatting ∧
    (handleUploadAndStartChat s files env).exampleQuestions
      = env.generateExampleQuestions.toOption.getD [] := by
  have h0 : ¬ files.length = 0 := by
    intro h
    rw [List.isEmpty_iff_length_eq_zero.mpr h] at hne
    cases hne
  rcases hc : env.createRagStore with e | rn
  · exfalso; simp [startSequenceSucceeds, hc, Except.isOk, Except.toBool] at hsucc
  · rcases hu : uploadFiles env files.length with e | u
    · exfalso; simp [startSequenceSucceeds, hc, hu, Except.isOk, Except.toBool] at hsucc
    · rcases hq : env.generateExampleQuestions with e | qs
      · exfalso; simp [startSequenceSucceeds, hc, hu, hq, Except.isOk, Except.toBool] at hsucc
      · refine ⟨?_, ?_, ?_, ?_, ?_, ?_, ?_⟩ <;>
          simp [handleUploadAndStartChat, h0, hc, hu, hq, Except.toOption]

/-- C8: the start sequence commits the new session (store handle set,
document label computed from the files, transcript reset) exactly when
index creation, every upload, and question generation all succeed; on any
failure the prior handle, transcript, label and questions are unchanged. -/
theorem startSession_commit (s : AppState) (files : List FileBlob) (env : RemoteEnv)
    (hne : files ≠ []) :
    (startSequenceSucceeds files env = true →
      (handleUploadAndStartChat s files env).activeRagStoreName.isSome = true ∧
      (handleUploadAndStartChat s files env).documentName = computeDocName files ∧
      (handleUploadAndStartChat s files env).chatHistory = [] ∧
      (handleUploadAndStartChat s files env).status = AppStatus.Chatting) ∧
    (startSequenceSucceeds files env = false →
      (handleUploadAndStartChat s files env).activeRagStoreName = s.activeRagStoreName ∧
      (handleUploadAndStartChat s files env).chatHistory = s.chatHistory ∧
      (handleUploadAndStartChat s files env).documentName = s.documentName ∧
      (handleUploadAndStartChat s files env).exampleQuestions = s.exampleQuestions) := by
  constructor
  · intro hsucc
    have hne' : files.isEmpty = false := by
      cases files with
      | nil => exact absurd rfl hne
      | cons a l => rfl
    obtain ⟨p1, _, _, p4, p5, p6, _⟩ := handleUpload_commit s files env hne' hsucc
    exact ⟨p1, p4, p5, p6⟩
  · intro hfail
    obtain ⟨p1, _, _, p4, p5, p6⟩ :=
      handleUpload_noCommit_frame s files env (Or.inr hfail)
    exact ⟨p1, p4, p5, p6⟩

/-- Witness for C8: one file with an all-success environment, and the same
file with a failing index creation. -/
theorem startSession_commit_witness :
    ((startSequenceSucceeds [FileBlob.mk "a.pdf"] sampleEnvOk = true →
      (handleUploadAndStartChat initState [FileBlob.mk "a.pdf"]
          sampleEnvOk).activeRagStoreName.isSome = true ∧
      (handleUploadAndStartChat initState [FileBlob.mk "a.pdf"] sampleEnvOk).documentName
        = computeDocName [FileBlob.mk "a.pdf"] ∧
      (handleUploadAndStartChat initState [FileBlob.mk "a.pdf"] sampleEnvOk).chatHistory
        = [] ∧
      (handleUploadAndStartChat initState [FileBlob.mk "a.pdf"] sampleEnvOk).status
        = AppStatus.Chatting) ∧
    (startSequenceSucceeds [FileBlob.mk "a.pdf"] sampleEnvOk = false →
      (handleUploadAndStartChat initState [FileBlob.mk "a.pdf"]
          sampleEnvOk).activeRagStoreName = initState.activeRagStoreName ∧
      (handleUploadAndStartChat initState [FileBlob.mk "a.pdf"] sampleEnvOk).chatHistory
        = initState.chatHistory ∧
      (handleUploadAndStartChat initState [FileBlob.mk "a.pdf"] sampleEnvOk).documentName
        = initState.documentName ∧
      (handleUploadAndStartChat initState [FileBlob.mk "a.pdf"]
          sampleEnvOk).exampleQuestions = initState.exampleQuestions)) ∧
    (startSequenceSucceeds [FileBlob.mk "a.pdf"] sampleEnvCreateFails = false →
      (handleUploadAndStartChat initState [FileBlob.mk "a.pdf"]
          sampleEnvCreateFails).activeRagStoreName = initState.activeRagStoreName ∧
      (handleUploadAndStartChat initState [FileBlob.mk "a.pdf"]
          sampleEnvCreateFails).chatHistory = initState.chatHistory ∧
      (handleUploadAndStartChat initState [FileBlob.mk "a.pdf"]
          sampleEnvCreateFails).documentName = initState.documentName ∧
      (handleUploadAndStartChat initState [FileBlob.mk "a.pdf"]
          sampleEnvCreateFails).exampleQuestions = initState.exampleQuestions) :=
  ⟨startSession_commit initState [FileBlob.mk "a.pdf"] sampleEnvOk (by decide),
   (startSession_commit initState [FileBlob.mk "a.pdf"] sampleEnvCreateFails
      (by decide)).2⟩

/-- Sending a message never changes the store handle, the search source or
the modal flag. -/
lemma handleSendMessage_frame (s : AppState) (m : String) (r : QueryResult) :
    (handleSendMessage s m r).1.activeRagStoreName = s.activeRagStoreName ∧
    (handleSendMessage s m r).1.searchSource = s.searchSource ∧
    (handleSendMessage s m r).1.isUploadModalOpen = s.isUploadModalOpen := by
  by_cases hg : s.searchSource == SearchSource.FileSearch && s.activeRagStoreName.isNone
  · simp [handleSendMessage, hg]
  · cases r <;> simp [handleSendMessage, hg, handleError]

/-- Switching to a different source clears the handle, installs the new
source and leaves the modal flag alone. -/
lemma handleSwitchSource_fields (d : Bool) (s : AppState) (src : SearchSource)
    (qr : Except String (List String)) (hne : (src == s.searchSource) = false) :
    (handleSwitchSource d s src qr).activeRagStoreName = none ∧
    (handleSwitchSource d s src qr).searchSource = src ∧
    (handleSwitchSource d s src qr).isUploadModalOpen = s.isUploadModalOpen := by
  refine ⟨?_, ?_, ?_⟩ <;> cases src <;> rcases qr with e | qs <;>
    simp [handleSwitchSource, hne, switchTeardown, handleEndChat]

/-- One step preserves the coupled invariant: the store handle is present
exactly when the spec-level aliveness bit says so, an alive handle forces
document-grounded mode, and an open upload modal forces document-grounded
mode. -/
lemma step_preserves (s : AppState) (a : Bool) (e : Event)
    (h1 : s.activeRagStoreName.isSome = a)
    (h2 : a = true → s.searchSource = SearchSource.FileSearch)
    (h3 : s.isUploadModalOpen = true → s.searchSource = SearchSource.FileSearch) :
    (stepF s e).activeRagStoreName.isSome
        = (if commitsIndex s e then true else if tearsDownIndex s e then false else a) ∧
      ((if commitsIndex s e then true else if tearsDownIndex s e then false else a) = true →
        (stepF s e).searchSource = SearchSource.FileSearch) ∧
      ((stepF s e).isUploadModalOpen = true →
        (stepF s e).searchSource = SearchSource.FileSearch) := by
  cases e with
  | fileSearchClick d =>
      by_cases hm : s.isUploadModalOpen
      · have e1 : stepF s (Event.fileSearchClick d) = s := by simp [stepF, hm]
        have e3 : tearsDownIndex s (Event.fileSearchClick d) = false := by
          simp [tearsDownIndex, hm]
        rw [e1, e3]
        exact ⟨h1, h2, h3⟩
      · have hm' : s.isUploadModalOpen = false := by simpa using hm
        by_cases hg : s.activeRagStoreName.isSome
            || (s.searchSource == SearchSource.GoogleSearch)
        · have e1 : stepF s (Event.fileSearchClick d)
              = { handleEndChat d s with isUploadModalOpen := true } := by
            simp [stepF, hm', handleFileSearchClick, hg]
          have e3 : tearsDownIndex s (Event.fileSearchClick d) = true := by
            simp [tearsDownIndex, hm', hg]
          rw [e1, e3]
          exact ⟨rfl, fun h => Bool.noConfusion h, fun _ => rfl⟩
        · have hg' : (s.activeRagStoreName.isSome
              || (s.searchSource == SearchSource.GoogleSearch)) = false := by
            simpa using hg
          have hsrc : s.searchSource = SearchSource.FileSearch := by
            cases hs : s.searchSource
            · rfl
            · rw [hs] at hg'
              simp at hg'
          have e1 : stepF s (Event.fileSearchClick d)
              = { s with isUploadModalOpen := true } := by
            simp [stepF, hm', handleFileSearchClick, hg']
          have e3 : tearsDownIndex s (Event.fileSearchClick d) = false := by
            simp [tearsDownIndex, hm', hg']
          rw [e1, e3]
          exact ⟨h1, h2, fun _ => hsrc⟩
  | upload files env =>
      by_cases hm : s.isUploadModalOpen
      · have e1 : stepF s (Event.upload files env)
            = handleUploadAndStartChat s files env := by
          simp [stepF, hm]
        by_cases hcommit : !files.isEmpty && startSequenceSucceeds files env
        · have hne : files.isEmpty = false := by
            have := (Bool.and_eq_true_iff.mp hcommit).1
            simpa using this
          have hsucc : startSequenceSucceeds files env = true :=
            (Bool.and_eq_true_iff.mp hcommit).2
          obtain ⟨p1, p2, p3, -, -, -, -⟩ := handleUpload_commit s files env hne hsucc
          have ec : commitsIndex s (Event.upload files env) = true := by
            simp [commitsIndex, hm, hne, hsucc]
          rw [e1, ec]
          refine ⟨p1, fun _ => ?_, fun hopen => ?_⟩
          · rw [p2]
            exact h3 hm
          · rw [p3] at hopen
            exact Bool.noConfusion hopen
        · have hcommit' : (!files.isEmpty && startSequenceSucceeds files env) = false := by
            simpa using hcommit
          have hdisj : files.isEmpty = true ∨ startSequenceSucceeds files env = false := by
            rcases Bool.and_eq_false_iff.mp hcommit' with h | h
            · exact Or.inl (by simpa using h)
            · exact Or.inr h
          obtain ⟨p1, p2, p3, -, -, -⟩ := handleUpload_noCommit_frame s files env hdisj
          have ec : commitsIndex s (Event.upload files env) = false := by
            simp only [commitsIndex, hm, Bool.true_and]
            exact hcommit'
          rw [e1, ec]
          refine ⟨by rw [p1]; exact h1, fun ha => by rw [p2]; exact h2 ha,
            fun hopen => ?_⟩
          · rw [p2]
            rw [p3] at hopen
            exact h3 hopen
      · have hm' : s.isUploadModalOpen = false := by simpa using hm
        have e1 : stepF s (Event.upload files env) = s := by simp [stepF, hm']
        have ec : commitsIndex s (Event.upload files env) = false := by
          simp [commitsIndex, hm']
        rw [e1, ec]
        exact ⟨h1, h2, h3⟩
  | send m r =>
      by_cases hm : s.isUploadModalOpen
      · have e1 : stepF s (Event.send m r) = s := by simp [stepF, hm]
        rw [e1]
        exact ⟨h1, h2, h3⟩
      · have hm' : s.isUploadModalOpen = false := by simpa using hm
        obtain ⟨p1, p2, p3⟩ := handleSendMessage_frame s m r
        have e1 : stepF s (Event.send m r) = (handleSendMessage s m r).1 := by
          simp [stepF, hm']
        rw [e1]
        refine ⟨by rw [p1]; exact h1, fun ha => by rw [p2]; exact h2 ha, fun hopen => ?_⟩
        · rw [p2]
          rw [p3] at hopen
          exact h3 hopen
  | endChat d =>
      by_cases hm : s.isUploadModalOpen
      · have e1 : stepF s (Event.endChat d) = s := by simp [stepF, hm]
        have e3 : tearsDownIndex s (Event.endChat d) = false := by
          simp [tearsDownIndex, hm]
        rw [e1, e3]
        exact ⟨h1, h2, h3⟩
      · have hm' : s.isUploadModalOpen = false := by simpa using hm
        have e1 : stepF s (Event.endChat d) = handleEndChat d s := by simp [stepF, hm']
        have e3 : tearsDownIndex s (Event.endChat d) = true := by
          simp [tearsDownIndex, hm']
        rw [e1, e3]
        exact ⟨rfl, fun h => Bool.noConfusion h, fun _ => rfl⟩
  | switchSrc src d qr =>
      by_cases hm : s.isUploadModalOpen
      · have e1 : stepF s (Event.switchSrc src d qr) = s := by simp [stepF, hm]
        have e3 : tearsDownIndex s (Event.switchSrc src d qr) = false := by
          simp [tearsDownIndex, hm]
        rw [e1, e3]
        exact ⟨h1, h2, h3⟩
      · have hm' : s.isUploadModalOpen = false := by simpa using hm
        by_cases hsame : src == s.searchSource
        · have e1 : stepF s (Event.switchSrc src d qr) = s := by
            simp [stepF, hm', handleSwitchSource, hsame]
          have e3 : tearsDownIndex s (Event.switchSrc src d qr) = false := by
            simp [tearsDownIndex, hm', hsame]
          rw [e1, e3]
          exact ⟨h1, h2, h3⟩
        · have hsame' : (src == s.searchSource) = false := by simpa using hsame
          obtain ⟨p1, p2, p3⟩ := handleSwitchSource_fields d s src qr hsame'
          have e1 : stepF s (Event.switchSrc src d qr)
              = handleSwitchSource d s src qr := by
            simp [stepF, hm']
          have e3 : tearsDownIndex s (Event.switchSrc src d qr) = true := by
            simp [tearsDownIndex, hm', hsame']
          rw [e1, e3]
          refine ⟨by rw [p1]; rfl, fun h => Bool.noConfusion h, fun hopen => ?_⟩
          · rw [p3, hm'] at hopen
            exact Bool.noConfusion hopen

/-- The coupled invariant transported along any event list. -/
lemma runFrom_handle_invariant :
    ∀ (es : List Event) (s : AppState) (a : Bool),
      s.activeRagStoreName.isSome = a →
      (a = true → s.searchSource = SearchSource.FileSearch) →
      (s.isUploadModalOpen = true → s.searchSource = SearchSource.FileSearch) →
      (runFrom s es).activeRagStoreName.isSome
        = (indexAliveFrom s a es && ((runFrom s es).searchSource == SearchSource.FileSearch))
  | [], s, a, h1, h2, h3 => by
      cases a with
      | false => simp [runFrom, indexAliveFrom, h1]
      | true => simp [runFrom, indexAliveFrom, h1, h2 rfl]
  | e :: es, s, a, h1, h2, h3 => by
      obtain ⟨g1, g2, g3⟩ := step_preserves s a e h1 h2 h3
      simpa [runFrom, indexAliveFrom] using
        runFrom_handle_invariant es (stepF s e) _ g1 g2 g3

/-- C1: after any trace of user events, the session's store handle is
present if and only if the app is in document-grounded (FileSearch) mode
and an index created by a fully successful upload sequence has not since
been torn down by an end-chat, a mode switch, or a file-search click. -/
theorem ragStore_mode_invariant (es : List Event) :
    (run es).activeRagStoreName.isSome
      = (indexAlive es && ((run es).searchSource == SearchSource.FileSearch)) :=
  runFrom_handle_invariant es initState false rfl
    (fun h => by cases h) (fun h => by cases h)

end MnemoMind
